import Mathlib

/-!
Shallow embedding of `polybar-pomo.go`, a polybar pomodoro-timer companion
process.  The repository carries two near-duplicate variants of the program;
this development embeds the primary variant (the one with the
`pause`/`toggle`/`inc`/`dec` command set and the single select-based main
loop).  Where the older variant differs it is noted in comments.

Modelling conventions:
* `time.Time` values and `time.Duration` values are integer nanoseconds
  (`Int`); `time.Now()` appears as an explicit `now : Int` argument.
* The `*time.Timer` / `*time.Ticker` handles carry no state that the main
  loop does not re-check (`state.Paused` is tested again on every firing),
  so timer/ticker firings are modelled as events fed to the main loop.
* Strings are handled at `Char` granularity over their ASCII fragment,
  which covers every recognized command byte.
-/

namespace PolybarPomo

/-- Go `time.Second` in nanoseconds. -/
def oneSecondNs : Int := 1000000000

/-- Go `time.Time.Round(time.Second)`: rounds a timestamp to the nearest
whole second; halfway values round up.  `Int` division is floor division
for a positive divisor, so adding half a second and flooring is exactly
round-half-up. -/
def roundTimeSec (t : Int) : Int := ((t + 500000000) / 1000000000) * 1000000000

/-- Go `time.Duration.Round(time.Second)`: rounds a duration to the nearest
whole second; halfway values round away from zero. -/
def roundDurSec (d : Int) : Int :=
  if 0 ≤ d then ((d + 500000000) / 1000000000) * 1000000000
  else -(((-d + 500000000) / 1000000000) * 1000000000)

/-- Go `PomodoroStatus` with its two declared constants `Work = 0` and
`Rest = 1` (the underlying Go type is `int`, but these are the only values
the program ever constructs). -/
inductive PomodoroStatus
  | Work
  | Rest
deriving DecidableEq, Repr

/-- The numeric value of a status constant (`Work = iota = 0`, `Rest = 1`). -/
def PomodoroStatus.toInt : PomodoroStatus → Int
  | .Work => 0
  | .Rest => 1

/-- Reading a numeric value back as a status (`0` is `Work`, `1` is `Rest`). -/
def statusOfInt (n : Int) : PomodoroStatus :=
  if n = 0 then .Work else .Rest

/-- The `-w` / `-r` flags converted to durations:
`WorkDuration = w * time.Minute`, `RestDuration = r * time.Minute`,
set once in `main` before any state exists. -/
structure Config where
  WorkDuration : Int
  RestDuration : Int
deriving DecidableEq, Repr

/-- Go `GetDuration`: the configured duration for the given status. -/
def GetDuration (cfg : Config) : PomodoroStatus → Int
  | .Work => cfg.WorkDuration
  | .Rest => cfg.RestDuration

/-- Go `PomodoroState`: the fields `End`, `Paused`, `Status`.  The `Timer`
and `Ticker` handles are not part of the embedded state (see the module
comment). -/
structure PomodoroState where
  End : Int
  Paused : Bool
  Status : PomodoroStatus
deriving DecidableEq, Repr

/-- Go `NewPomodoro`: initial state with the given status and pause flag;
`End = time.Now().Add(GetDuration(status))`. -/
def NewPomodoro (cfg : Config) (status : PomodoroStatus) (paused : Bool) (now : Int) :
    PomodoroState :=
  { Status := status, End := now + GetDuration cfg status, Paused := paused }

/-- Go `(*PomodoroState).Pause`: flips `Paused`.  The branches only stop or
reset the expiry `Timer` (with `End.Sub(now)`); neither branch writes `End`
or `Status`. -/
def PomodoroState.Pause (state : PomodoroState) (_now : Int) : PomodoroState :=
  { state with Paused := !state.Paused }

/-- Go `(*PomodoroState).Toggle`: `nextStatus := (Status + 1) % 2`, then
`Status = nextStatus` and `End = now + GetDuration(nextStatus)`. -/
def PomodoroState.Toggle (state : PomodoroState) (cfg : Config) (now : Int) : PomodoroState :=
  let nextStatus := statusOfInt ((state.Status.toInt + 1) % 2)
  { state with Status := nextStatus, End := now + GetDuration cfg nextStatus }

/-- Go `(*PomodoroState).Inc`: `End = End.Add(increment).Round(time.Second)`.
(The non-paused branch additionally resets the expiry `Timer` to the new
remaining duration; that handle is modelled through main-loop events.) -/
def PomodoroState.Inc (state : PomodoroState) (increment : Int) : PomodoroState :=
  { state with End := roundTimeSec (state.End + increment) }

/-- Go constant `TomatoEmoji = "\U0001F345"`, shown while working. -/
def TomatoEmoji : String := "🍅"

/-- Go constant `RestEmoji = "\U0001F3D6"`, shown while resting. -/
def RestEmoji : String := "🏖"

/-- Go constant `PauseEmoji = "\U000023F8"`, shown while paused. -/
def PauseEmoji : String := "⏸"

/-- The `suffix` icon chosen by the Go `String` method: paused wins, then
work, then rest. -/
def PomodoroState.suffix (state : PomodoroState) : String :=
  if state.Paused then PauseEmoji
  else if state.Status = .Work then TomatoEmoji
  else RestEmoji

/-- `elapsedTime := state.End.Sub(time.Now()).Round(time.Second)` from the
Go `String` method: the remaining duration, rounded to a whole second. -/
def PomodoroState.elapsedTime (state : PomodoroState) (now : Int) : Int :=
  roundDurSec (state.End - now)

/-- `minutes := int(elapsedTime.Minutes())`: the float division
`elapsedTime / 60e9` truncated toward zero, which for whole-second
durations is exactly `Int.tdiv` (Go `int()` truncates toward zero). -/
def PomodoroState.minutes (state : PomodoroState) (now : Int) : Int :=
  Int.tdiv (state.elapsedTime now) 60000000000

/-- `seconds := int(elapsedTime.Seconds()) - 60*minutes` from the Go
`String` method. -/
def PomodoroState.seconds (state : PomodoroState) (now : Int) : Int :=
  Int.tdiv (state.elapsedTime now) 1000000000 - 60 * state.minutes now

/-- Go `fmt.Sprintf` verb `%02d`: minimum width two, zero padded.  Values
in `0..9` gain a leading zero; every other value (negative, or at least
two digits wide) prints as-is. -/
def fmt02 (n : Int) : String :=
  if 0 ≤ n ∧ n < 10 then "0" ++ toString n else toString n

/-- Go `(*PomodoroState).String`:
`fmt.Sprintf("%s %02d:%02d", suffix, minutes, seconds)`. -/
def PomodoroState.render (state : PomodoroState) (now : Int) : String :=
  state.suffix ++ " " ++ fmt02 (state.minutes now) ++ ":" ++ fmt02 (state.seconds now)

/-- ASCII fragment of Go `strings.ToLower` on a single character. -/
def toLowerChar (c : Char) : Char :=
  if 'A' ≤ c ∧ c ≤ 'Z' then Char.ofNat (c.toNat + 32) else c

/-- ASCII fragment of Go `strings.ToLower`. -/
def goToLower (s : List Char) : List Char := s.map toLowerChar

/-- ASCII white space cut by Go `strings.TrimSpace`. -/
def isSpaceChar (c : Char) : Bool :=
  c = ' ' || c = '\t' || c = '\n' || c = '\r' || c = '\x0b' || c = '\x0c'

/-- Go `strings.TrimSpace`: drop white space from both ends. -/
def goTrimSpace (s : List Char) : List Char :=
  ((s.dropWhile isSpaceChar).reverse.dropWhile isSpaceChar).reverse

/-- `message := strings.TrimSpace(strings.ToLower(string(buffer[:n])))`
from `HandleRequest`. -/
def normalizeMessage (raw : List Char) : List Char :=
  goTrimSpace (goToLower raw)

/-- The mutation a recognized command sends to the main loop: `pause` and
`toggle` send on their struct channels; `inc`/`dec` send a duration on
`incChannel`. -/
inductive Mutation
  | pauseCmd
  | toggleCmd
  | incCmd (d : Int)
deriving DecidableEq, Repr

/-- The `switch message` of `HandleRequest`: `"pause"`, `"toggle"`,
`"inc"` (+5s), `"dec"` (-5s); any other text falls through to no case.
(The older variant recognizes only the `"pause"` and `"toggle"` cases.) -/
def parseCommand (message : List Char) : Option Mutation :=
  if message = "pause".toList then some .pauseCmd
  else if message = "toggle".toList then some .toggleCmd
  else if message = "inc".toList then some (.incCmd (5 * oneSecondNs))
  else if message = "dec".toList then some (.incCmd (-5 * oneSecondNs))
  else none

/-- What one run of `HandleRequest` does: at most one mutation sent to the
main loop, the bytes written back to the connection, and the lines printed
to the process log. -/
structure HandlerEffect where
  mutation : Option Mutation
  reply : List Char
  log : List String
deriving DecidableEq, Repr

/-- Go `HandleRequest`: one `conn.Read` into a 128-byte buffer.  A failed
read (`.error e`) prints and returns; a successful read normalizes
`buffer[:n]` and switches on it.  The function contains no `conn.Write`,
so `reply` is `[]` in both branches. -/
def HandleRequest (readResult : Except String (List Char)) : HandlerEffect :=
  match readResult with
  | .error e => { mutation := none, reply := [], log := ["Error reading: " ++ e] }
  | .ok bytes => { mutation := parseCommand (normalizeMessage bytes), reply := [], log := [] }

/-- A whole connection: `buffer := make([]byte, 128)` bounds the single
read, so at most the first 128 bytes of the message sent reach
`HandleRequest`. -/
def handleConn (message : List Char) : HandlerEffect :=
  HandleRequest (.ok (message.take 128))

/-- The events the `select` of `main` waits on: a ticker tick, an expiry
timer firing, or a command arriving on one of the three channels. -/
inductive LoopEvent
  | tick (now : Int)
  | timerFired (now : Int)
  | command (now : Int) (m : Mutation)
deriving DecidableEq, Repr

/-- Dispatch of one received command in `main`: `pauseChannel` runs
`state.Pause()`, `toggleChannel` runs `state.Toggle()`, `incChannel`
runs `state.Inc(inc)`. -/
def applyMutation (cfg : Config) (state : PomodoroState) (now : Int) :
    Mutation → PomodoroState
  | .pauseCmd => state.Pause now
  | .toggleCmd => state.Toggle cfg now
  | .incCmd d => state.Inc d

/-- One iteration of the `select` in `main`: a tick runs `Inc(1s)` only
while paused; a timer firing runs `Toggle()` only while not paused; a
command is dispatched unconditionally. -/
def loopStep (cfg : Config) (state : PomodoroState) : LoopEvent → PomodoroState
  | .tick _ => if state.Paused then state.Inc oneSecondNs else state
  | .timerFired now => if !state.Paused then state.Toggle cfg now else state
  | .command now m => applyMutation cfg state now m

/-- The main loop folded over a sequence of events, starting from a given
state. -/
def runLoop (cfg : Config) (state : PomodoroState) (events : List LoopEvent) :
    PomodoroState :=
  events.foldl (loopStep cfg) state

/-- How the main loop consumes the outcome of a handler: no mutation leaves the
state untouched (the handler returned without sending on any channel);
a mutation is dispatched exactly once. -/
def applyHandler (cfg : Config) (state : PomodoroState) (now : Int)
    (eff : HandlerEffect) : PomodoroState :=
  match eff.mutation with
  | none => state
  | some m => applyMutation cfg state now m

/-- Observable startup actions of `main` around the socket. -/
inductive StartupAction
  | removeSocket
  | bindSocket
  | report (msg : String)
  | runMainLoop
deriving DecidableEq, Repr

/-- The startup sequence of `main`: `os.RemoveAll(SocketPath)` first; on
error print and return.  Then `net.ListenUnix`; on error print and return.
Only then are the channels, the accept goroutine, the `NewPomodoro` state
and the select loop started. -/
def startupTrace (removeErr : Option String) (listenErr : Option String) :
    List StartupAction :=
  StartupAction.removeSocket ::
    match removeErr with
    | some e => [.report ("Error removing socket file: " ++ e)]
    | none =>
      StartupAction.bindSocket ::
        match listenErr with
        | some e => [.report ("Error listening: " ++ e)]
        | none => [.runMainLoop]

/-- Modelled from the spec: the output contract of §6, "one line per
second, format `<icon> MM:SS`, where `<icon>` is one of three fixed glyphs
(paused / work / rest) and `MM:SS` is the remaining time in the current
phase, zero-padded two-digit minutes and seconds".  Minutes and seconds of
a (necessarily non-negative) remaining time, each zero padded. -/
def specPad2 (n : Nat) : String :=
  if n < 10 then "0" ++ toString n else toString n

/-- Modelled from the spec: the remaining time behind the `MM:SS` of spec §6, in whole
seconds (rounded to the nearest second per §4.1 Render). -/
def specRemainingSeconds (state : PomodoroState) (now : Int) : Nat :=
  (roundDurSec (state.End - now) / 1000000000).toNat

/-- Modelled from the spec: the §6 status line, `<icon> MM:SS`. -/
def specRender (state : PomodoroState) (now : Int) : String :=
  (if state.Paused then PauseEmoji
   else if state.Status = .Work then TomatoEmoji else RestEmoji)
    ++ " " ++ specPad2 (specRemainingSeconds state now / 60)
    ++ ":" ++ specPad2 (specRemainingSeconds state now % 60)

/-- Rounding a timestamp commutes with shifting it by a whole number of
seconds. -/
lemma roundTimeSec_add_mul (t k : Int) :
    roundTimeSec (t + k * 1000000000) = roundTimeSec t + k * 1000000000 := by
  unfold roundTimeSec; omega

/-- Rounding a timestamp to the second is idempotent. -/
lemma roundTimeSec_idem (t : Int) :
    roundTimeSec (roundTimeSec t) = roundTimeSec t := by
  unfold roundTimeSec; omega

/-- Rounding a timestamp moves it by at most half a second. -/
lemma roundTimeSec_close (t : Int) :
    (roundTimeSec t - t).natAbs * 2 ≤ 1000000000 := by
  unfold roundTimeSec; omega

/-- One `Toggle` always lands on the other status. -/
lemma Toggle_Status_ne (state : PomodoroState) (cfg : Config) (now : Int) :
    (state.Toggle cfg now).Status ≠ state.Status := by
  cases h : state.Status <;>
    simp [PomodoroState.Toggle, statusOfInt, PomodoroStatus.toInt, h]

/-- Two `Toggle`s restore the status. -/
lemma Toggle_Toggle_Status (state : PomodoroState) (cfg : Config) (n1 n2 : Int) :
    ((state.Toggle cfg n1).Toggle cfg n2).Status = state.Status := by
  cases h : state.Status <;>
    simp [PomodoroState.Toggle, statusOfInt, PomodoroStatus.toInt, h]

example : parseCommand (normalizeMessage " PaUsE\n".toList) = some .pauseCmd := by decide

example : (⟨0, true, .Work⟩ : PomodoroState).render 3000000000 = "⏸ 00:-3" := by decide

example : specRender ⟨0, true, .Work⟩ 3000000000 = "⏸ 00:00" := by decide

example : (⟨90000000000, false, .Work⟩ : PomodoroState).render 0 = "🍅 01:30" := by decide

/-- A concrete configuration for witnesses: `-w 25 -r 5` (the defaults), in
nanoseconds. -/
def wCfg : Config := ⟨1500000000000, 300000000000⟩

/-- A concrete state for witnesses: one minute remaining past epoch, paused,
working. -/
def wState : PomodoroState := ⟨60000000000, true, .Work⟩

/-- C2: `Toggle()` unconditionally switches the phase to the other value
(`(Status + 1) % 2`) and sets `End` to `now` plus the configured duration of
the new phase; along every sequence of `Toggle()` calls the phase strictly
alternates, and two `Toggle()`s restore the original phase. -/
theorem toggle_strict_alternation (cfg : Config) (state : PomodoroState)
    (n1 n2 now : Int) (nows : List Int) :
    ((state.Toggle cfg n1).Toggle cfg n2).Status = state.Status
    ∧ (state.Toggle cfg n1).Status ≠ state.Status
    ∧ (state.Toggle cfg n1).End = n1 + GetDuration cfg (state.Toggle cfg n1).Status
    ∧ (List.foldl (fun s t => s.Toggle cfg t) state (nows ++ [now])).Status
        ≠ (List.foldl (fun s t => s.Toggle cfg t) state nows).Status := by
  refine ⟨Toggle_Toggle_Status state cfg n1 n2, Toggle_Status_ne state cfg n1, rfl, ?_⟩
  rw [List.foldl_append]
  exact Toggle_Status_ne _ cfg now

/-- Closed instance of `toggle_strict_alternation` at a concrete state. -/
theorem toggle_strict_alternation_witness :
    ((wState.Toggle wCfg 3).Toggle wCfg 9).Status = wState.Status
    ∧ (wState.Toggle wCfg 3).Status ≠ wState.Status :=
  ⟨(toggle_strict_alternation wCfg wState 3 9 0 []).1,
   (toggle_strict_alternation wCfg wState 3 9 0 []).2.1⟩

/-- C3: `Pause()` twice restores the paused flag and leaves `End` within one
second of its prior value (it is in fact untouched), and while paused the
tick case of the main loop runs `Inc(1s)`, which advances `End` by exactly
one second whenever `End` is on a whole-second boundary. -/
theorem pause_involution (cfg : Config) (state : PomodoroState) (n1 n2 now : Int) :
    ((state.Pause n1).Pause n2).Paused = state.Paused
    ∧ (((state.Pause n1).Pause n2).End - state.End).natAbs ≤ 1000000000
    ∧ (state.Paused = true →
        loopStep cfg state (.tick now) = state.Inc oneSecondNs
        ∧ (state.End % 1000000000 = 0 →
            (loopStep cfg state (.tick now)).End = state.End + 1000000000)) := by
  refine ⟨by simp [PomodoroState.Pause], by simp [PomodoroState.Pause],
    fun hp => ⟨by simp [loopStep, hp], fun hw => ?_⟩⟩
  show (if state.Paused then state.Inc oneSecondNs else state).End = _
  rw [hp]
  show roundTimeSec (state.End + oneSecondNs) = _
  unfold roundTimeSec oneSecondNs
  omega

/-- Closed instance of `pause_involution` at a concrete paused state with a
whole-second `End`. -/
theorem pause_involution_witness :
    ((wState.Pause 0).Pause 7).Paused = wState.Paused
    ∧ loopStep wCfg wState (.tick 5) = wState.Inc oneSecondNs
    ∧ (loopStep wCfg wState (.tick 5)).End = wState.End + 1000000000 :=
  ⟨(pause_involution wCfg wState 0 7 5).1,
   ((pause_involution wCfg wState 0 7 5).2.2 rfl).1,
   ((pause_involution wCfg wState 0 7 5).2.2 rfl).2 (by decide)⟩

/-- C4: `Inc(+5s)` immediately followed by `Inc(-5s)` returns `End` to its
original value up to second-granularity rounding (exactly to the rounded
original, which is within half a second of it); in general `Inc(delta)`
sets `End` to `End + delta` rounded to a whole second, and for a
whole-second `delta` this shifts the rounded `End` by exactly `delta`. -/
theorem inc_shift_round (state : PomodoroState) (d k : Int) :
    ((state.Inc (5 * oneSecondNs)).Inc (-5 * oneSecondNs)).End = roundTimeSec state.End
    ∧ (roundTimeSec state.End - state.End).natAbs * 2 ≤ 1000000000
    ∧ (state.Inc d).End = roundTimeSec (state.End + d)
    ∧ (state.Inc (k * 1000000000)).End = roundTimeSec state.End + k * 1000000000 := by
  refine ⟨?_, roundTimeSec_close state.End, rfl, ?_⟩
  · show roundTimeSec (roundTimeSec (state.End + 5 * oneSecondNs) + -5 * oneSecondNs) =
      roundTimeSec state.End
    unfold oneSecondNs roundTimeSec
    omega
  · show roundTimeSec (state.End + k * 1000000000) = roundTimeSec state.End + k * 1000000000
    exact roundTimeSec_add_mul state.End k

/-- C1: the received text, lowercased and trimmed, maps to exactly one
mutation — `"pause"` to `Pause()`, `"toggle"` to `Toggle()`, `"inc"` to
`Inc(+5s)`, `"dec"` to `Inc(-5s)` — and the main loop dispatches each
received command as exactly that one mutation. -/
theorem handle_request_dispatch (raw : List Char) (cfg : Config)
    (state : PomodoroState) (now : Int) :
    (parseCommand (normalizeMessage raw) = some .pauseCmd
      ↔ normalizeMessage raw = "pause".toList)
    ∧ (parseCommand (normalizeMessage raw) = some .toggleCmd
      ↔ normalizeMessage raw = "toggle".toList)
    ∧ (parseCommand (normalizeMessage raw) = some (.incCmd (5 * oneSecondNs))
      ↔ normalizeMessage raw = "inc".toList)
    ∧ (parseCommand (normalizeMessage raw) = some (.incCmd (-5 * oneSecondNs))
      ↔ normalizeMessage raw = "dec".toList)
    ∧ loopStep cfg state (.command now .pauseCmd) = state.Pause now
    ∧ loopStep cfg state (.command now .toggleCmd) = state.Toggle cfg now
    ∧ ∀ d, loopStep cfg state (.command now (.incCmd d)) = state.Inc d := by
  refine ⟨?_, ?_, ?_, ?_, rfl, rfl, fun d => rfl⟩ <;>
    · unfold parseCommand
      split_ifs <;> simp_all <;> decide

/-- Closed instance of `handle_request_dispatch`: a mixed-case command with
surrounding whitespace is recognized. -/
theorem handle_request_dispatch_witness :
    parseCommand (normalizeMessage " PaUsE\n".toList) = some .pauseCmd :=
  (handle_request_dispatch " PaUsE\n".toList wCfg wState 0).1.mpr (by decide)

/-- C7: a failed read or an unrecognized message leaves the state unchanged,
and the handler never writes anything back to the sender. -/
theorem handler_silent_noop (cfg : Config) (state : PomodoroState) (now : Int)
    (readResult : Except String (List Char)) :
    (HandleRequest readResult).reply = []
    ∧ (∀ e, readResult = .error e →
        applyHandler cfg state now (HandleRequest readResult) = state)
    ∧ (∀ bytes, readResult = .ok bytes →
        parseCommand (normalizeMessage bytes) = none →
        applyHandler cfg state now (HandleRequest readResult) = state) := by
  refine ⟨?_, fun e he => ?_, fun bytes hb hwnone => ?_⟩
  · cases readResult <;> rfl
  · subst he; rfl
  · subst hb
    simp [HandleRequest, applyHandler, hwnone]

/-- Closed instance of `handler_silent_noop`: the message `"foobar"` and a
read error both leave the state unchanged and send nothing back. -/
theorem handler_silent_noop_witness :
    (HandleRequest (.ok "foobar".toList)).reply = []
    ∧ applyHandler wCfg wState 0 (HandleRequest (.error "EOF")) = wState
    ∧ applyHandler wCfg wState 0 (HandleRequest (.ok "foobar".toList)) = wState :=
  ⟨(handler_silent_noop wCfg wState 0 (.ok "foobar".toList)).1,
   (handler_silent_noop wCfg wState 0 (.error "EOF")).2.1 "EOF" rfl,
   (handler_silent_noop wCfg wState 0 (.ok "foobar".toList)).2.2 "foobar".toList rfl
     (by decide)⟩

/-- C8: startup removes any stale socket before binding (the removal is the
first action and a bind only happens after a successful removal), and a
failure of either step reports it and prevents the main loop — so no timer
state is ever advanced or emitted after such a failure. -/
theorem startup_failure_is_fatal (removeErr listenErr : Option String) :
    (startupTrace removeErr listenErr).head? = some .removeSocket
    ∧ (StartupAction.bindSocket ∈ startupTrace removeErr listenErr → removeErr = none)
    ∧ (removeErr ≠ none ∨ listenErr ≠ none →
        StartupAction.runMainLoop ∉ startupTrace removeErr listenErr
        ∧ ∃ m, StartupAction.report m ∈ startupTrace removeErr listenErr)
    ∧ (removeErr = none → listenErr = none →
        StartupAction.runMainLoop ∈ startupTrace removeErr listenErr) := by
  cases removeErr <;> cases listenErr <;>
    simp [startupTrace]

/-- Closed instance of `startup_failure_is_fatal`: a failed bind reports and
never reaches the main loop. -/
theorem startup_failure_is_fatal_witness :
    StartupAction.runMainLoop ∉ startupTrace none (some "address already in use")
    ∧ StartupAction.runMainLoop ∈ startupTrace none none :=
  ⟨((startup_failure_is_fatal none (some "address already in use")).2.2.1
      (Or.inr (by simp))).1,
   (startup_failure_is_fatal none none).2.2.2 rfl rfl⟩

/-- A 129-byte message consisting of `"pause"` followed by white space. -/
def longPauseMsg : List Char := "pause".toList ++ List.replicate 124 ' '

set_option maxRecDepth 4096 in
/-- C10 counterexample: a message longer than 128 bytes is not always a
no-op — when the single 128-byte read still delivers the whole command,
trimming recovers it and a mutation occurs. -/
theorem long_message_recognized :
    128 < longPauseMsg.length
    ∧ (handleConn longPauseMsg).mutation = some .pauseCmd := by
  constructor <;> decide

/-- C10 (amended): one bounded read means recognition depends only on the
first 128 bytes of a message: a message whose first 128 delivered bytes do
not normalize to a recognized command causes no mutation, and any
recognized message has first 128 bytes normalizing to one of the four
commands. -/
theorem read_window_only (message : List Char) :
    handleConn message = HandleRequest (.ok (message.take 128))
    ∧ (parseCommand (normalizeMessage (message.take 128)) = none →
        (handleConn message).mutation = none)
    ∧ ((handleConn message).mutation ≠ none →
        normalizeMessage (message.take 128)
          ∈ ["pause".toList, "toggle".toList, "inc".toList, "dec".toList]) := by
  refine ⟨rfl, fun hwnone => by simp [handleConn, HandleRequest, hwnone], fun hsome => ?_⟩
  have h : parseCommand (normalizeMessage (message.take 128)) ≠ none := hsome
  revert h
  unfold parseCommand
  split_ifs <;> simp_all

/-- Closed instance of `read_window_only`: 129 junk bytes cause no
mutation. -/
theorem read_window_only_witness :
    (handleConn (List.replicate 129 'x')).mutation = none :=
  (read_window_only (List.replicate 129 'x')).2.1 (by decide)

/-- Go `%02d` agrees with the zero padding of the spec on natural numbers. -/
lemma fmt02_cast (n : Nat) : fmt02 (n : Int) = specPad2 n := by
  unfold fmt02 specPad2
  by_cases h : n < 10
  · rw [if_pos ⟨by positivity, by exact_mod_cast h⟩, if_pos h]
    rfl
  · rw [if_neg (fun hc => h (by exact_mod_cast hc.2)), if_neg h]
    rfl

/-- While the period end has not passed, the displayed minutes and seconds
are exactly the minutes and seconds the spec takes of the rounded remaining time. -/
lemma render_fields (state : PomodoroState) (now : Int) (h : 0 ≤ state.End - now) :
    state.minutes now = ((specRemainingSeconds state now / 60 : Nat) : Int)
    ∧ state.seconds now = ((specRemainingSeconds state now % 60 : Nat) : Int) := by
  unfold PomodoroState.seconds PomodoroState.minutes PomodoroState.elapsedTime
    specRemainingSeconds roundDurSec
  simp only [if_pos h]
  have hq : 0 ≤ (state.End - now + 500000000) / 1000000000 :=
    Int.ediv_nonneg (by omega) (by norm_num)
  rw [Int.tdiv_eq_ediv (by positivity) (by norm_num),
    Int.tdiv_eq_ediv (by positivity) (by norm_num)]
  omega

/-- While the period end has not passed, both displayed fields are
non-negative. -/
lemma render_fields_nonneg (state : PomodoroState) (now : Int) (h : now ≤ state.End) :
    0 ≤ state.minutes now ∧ 0 ≤ state.seconds now := by
  obtain ⟨hm, hs⟩ := render_fields state now (by omega)
  rw [hm, hs]
  omega

/-- A state whose period end lies in the past (as `Inc(-5s)` can produce). -/
def cexRenderState : PomodoroState := ⟨0, true, .Work⟩

/-- C5 counterexample: with three seconds of overshoot past the period end,
`String()` prints `"⏸ 00:-3"` — the seconds field is not a zero-padded
two-digit `SS`, so the rendered line is not of the claimed byte format. -/
theorem render_spec_mismatch :
    cexRenderState.render 3000000000 = "⏸ 00:-3"
    ∧ specRender cexRenderState 3000000000 = "⏸ 00:00"
    ∧ cexRenderState.render 3000000000 ≠ specRender cexRenderState 3000000000 := by
  refine ⟨by decide, by decide, by decide⟩

/-- C5 (amended): whenever the period end has not passed, `String()`
produces exactly `<icon> MM:SS` — the paused glyph while paused, otherwise
the work or rest glyph matching the phase, and the minutes and seconds of
the remaining time zero padded — i.e. it agrees with the format of the spec. -/
theorem render_matches_spec (state : PomodoroState) (now : Int)
    (h : 0 ≤ state.End - now) :
    state.render now = specRender state now := by
  obtain ⟨hm, hs⟩ := render_fields state now h
  unfold PomodoroState.render specRender PomodoroState.suffix
  rw [hm, hs, fmt02_cast, fmt02_cast]

/-- Closed instance of `render_matches_spec` at a concrete running state. -/
theorem render_matches_spec_witness :
    wState.render 0 = specRender wState 0 :=
  render_matches_spec wState 0 (by decide)

/-- The `-w 1 -r 1` configuration (one-minute periods). -/
def cfgOneMinute : Config := ⟨60000000000, 60000000000⟩

/-- Thirteen `dec` commands delivered back to back. -/
def decFlood : List LoopEvent :=
  List.replicate 13 (.command 0 (.incCmd (-5000000000)))

/-- The state reached from startup (`NewPomodoro(Work, true)`) by thirteen
`dec` commands: 65 seconds removed from a 60-second period. -/
def overDecState : PomodoroState :=
  runLoop cfgOneMinute (NewPomodoro cfgOneMinute .Work true 0) decFlood

/-- C6 counterexample: a reachable state (thirteen `dec` commands against a
one-minute work period, still paused as at startup) whose displayed seconds
field is negative. -/
theorem display_goes_negative :
    overDecState.seconds 0 = -5 ∧ overDecState.render 0 = "⏸ 00:-5" := by
  constructor <;> decide

/-- C6 (amended): in every state reachable by ticks, timer firings and
commands from the startup state, the displayed minutes and seconds are
non-negative as long as the period end has not passed; `Inc` with a
negative delta can move the period end before `now`, after which the
seconds field turns negative (`display_goes_negative`). -/
theorem display_nonneg_before_end (cfg : Config) (t0 now : Int) (paused : Bool)
    (events : List LoopEvent)
    (h : now ≤ (runLoop cfg (NewPomodoro cfg .Work paused t0) events).End) :
    0 ≤ (runLoop cfg (NewPomodoro cfg .Work paused t0) events).minutes now
    ∧ 0 ≤ (runLoop cfg (NewPomodoro cfg .Work paused t0) events).seconds now :=
  render_fields_nonneg _ now h

/-- Closed instance of `display_nonneg_before_end` at the startup state. -/
theorem display_nonneg_before_end_witness :
    0 ≤ (runLoop cfgOneMinute (NewPomodoro cfgOneMinute .Work true 0) []).minutes 0
    ∧ 0 ≤ (runLoop cfgOneMinute (NewPomodoro cfgOneMinute .Work true 0) []).seconds 0 :=
  display_nonneg_before_end cfgOneMinute 0 0 true [] (by decide)

end PolybarPomo
